import Mathlib

/-!
Verification of the Telegram-to-Discord forwarding pipeline.

This file gives a shallow embedding of the relaying program:
the TTL cache (`cache.py`), the route store lookup (`database.py`),
the ingestion queue, topic resolution, chat-id normalization, delivery
retry and payload assembly (`bot.py`), together with theorems settling
the behavioural claims made about the program.
-/

set_option maxHeartbeats 1000000

/-! ## Decimal strings: embedding of Python `str` on integers and `int` parsing -/

/-- Character for a single decimal digit `n < 10`. -/
def digitChar (n : Nat) : Char := Char.ofNat (48 + n)

/-- Fuel-driven most-significant-first decimal digit list of a natural number. -/
def natDigitsAux : Nat → Nat → List Char
  | 0, _ => []
  | fuel + 1, n =>
    if n < 10 then [digitChar n]
    else natDigitsAux fuel (n / 10) ++ [digitChar (n % 10)]

/-- Decimal digit list of a natural number (most significant digit first). -/
def natDigits (n : Nat) : List Char := natDigitsAux (n + 1) n

/-- Embedding of Python `str` on an `int` value. -/
def pyStrInt (i : Int) : String :=
  if i < 0 then String.mk ('-' :: natDigits (-i).toNat)
  else String.mk (natDigits i.toNat)

/-- Whether a character is an ASCII decimal digit. -/
def isDigitChar (c : Char) : Bool := 48 ≤ c.toNat && c.toNat ≤ 57

/-- Numeric value of a most-significant-first digit list. -/
def digitsVal (cs : List Char) : Nat :=
  cs.foldl (fun a c => a * 10 + (c.toNat - 48)) 0

/-- Embedding of Python `int(s)` on decimal literals: an optional leading
minus sign followed by at least one digit; anything else raises, which we
model as `none`. -/
def pyIntOfStr (s : String) : Option Int :=
  match s.data with
  | [] => none
  | c :: rest =>
    if c = '-' then
      if rest ≠ [] ∧ rest.all isDigitChar then some (-(digitsVal rest : Int))
      else none
    else if (c :: rest).all isDigitChar then some ((digitsVal (c :: rest) : Int))
    else none

/-- Embedding of Python `s.startswith(pre)` on character lists. -/
def charsStartWith : List Char → List Char → Bool
  | [], _ => true
  | _ :: _, [] => false
  | a :: as, b :: bs => a == b && charsStartWith as bs

/-- Embedding of Python `s.startswith(pre)`. -/
def pyStartsWith (s pre : String) : Bool := charsStartWith pre.data s.data

/-! ## SimpleCache (`cache.py`) and Database.get_webhook (`database.py`) -/

/-- Embedding of `SimpleCache`: association list from key to
`(value, timestamp)`; a stored value may itself be `none` (a cached
negative result, i.e. Python `None`). -/
structure SimpleCache where
  entries : List (String × Option String × Nat)
  ttl : Nat
deriving DecidableEq, Repr

/-- Embedding of `SimpleCache.get`: on a fresh hit return the stored value
(which may be a stored `none`); on an expired hit delete the entry; on a
miss return `none`.  The Python return value conflates a stored `None`
with a miss, which the result type `Option String` reproduces. -/
def cacheLookup (c : SimpleCache) (key : String) (now : Nat) :
    Option String × SimpleCache :=
  match c.entries.find? (fun e => e.1 == key) with
  | none => (none, c)
  | some ent =>
    if now - ent.2.2 < c.ttl then (ent.2.1, c)
    else (none, { c with entries := c.entries.filter (fun e => !(e.1 == key)) })

/-- Embedding of `SimpleCache.set`: store `(value, now)` under `key`,
replacing any previous binding. -/
def cachePut (c : SimpleCache) (key : String) (v : Option String) (now : Nat) :
    SimpleCache :=
  { c with entries := (key, v, now) :: c.entries.filter (fun e => !(e.1 == key)) }

/-- Database state: the optional cache (`ENABLE_CACHE`) and the
`tg_dc_webhook` table as rows `(group_id, topic_id, webhook_url)`. -/
structure Db where
  cache : Option SimpleCache
  store : List (Int × Int × String)
deriving DecidableEq, Repr

/-- First `webhook_url` of a row matching `group_id = g AND topic_id = t`
(embedding of the SQL `SELECT ... WHERE` with `fetchone`). -/
def storeFind (store : List (Int × Int × String)) (g t : Int) : Option String :=
  (store.find? (fun r => r.1 == g && r.2.1 == t)).map (fun r => r.2.2)

/-- Cache key `f"webhook_{group_id}_{topic_id}"`. -/
def webhookKey (g t : Int) : String :=
  "webhook_" ++ pyStrInt g ++ "_" ++ pyStrInt t

/-- The store-querying part of `Database.get_webhook` (lines 58-82):
exact match first, then, if no row and `topic_id != 0`, the wildcard
`topic_id = -1`; the result (even `None`) is written into the cache.
Returns (result, new state, number of SQL queries executed). -/
def queryStore (db : Db) (key : String) (g t : Int) (now : Nat) :
    Option String × Db × Nat :=
  let exact := storeFind db.store g t
  let res : Option String × Nat :=
    match exact with
    | some u => (some u, 1)
    | none => if t == 0 then (none, 1) else (storeFind db.store g (-1), 2)
  let db1 :=
    match db.cache with
    | some c => { db with cache := some (cachePut c key res.1 now) }
    | none => db
  (res.1, db1, res.2)

/-- Embedding of `Database.get_webhook`: consult the cache first and
return a non-`None` cached value immediately; otherwise query the store.
Returns (result, new state, number of SQL queries executed). -/
def getWebhook (db : Db) (g t : Int) (now : Nat) : Option String × Db × Nat :=
  let key := webhookKey g t
  match db.cache with
  | none => queryStore db key g t now
  | some c =>
    let r := cacheLookup c key now
    match r.1 with
    | some v => (some v, { db with cache := some r.2 }, 0)
    | none => queryStore { db with cache := some r.2 } key g t now

/-- The cached `(value, timestamp)` entry currently stored for `key`. -/
def cacheEntryOf (db : Db) (key : String) : Option (Option String × Nat) :=
  match db.cache with
  | some c => (c.entries.find? (fun e => e.1 == key)).map (fun e => e.2)
  | none => none

/-- Initial database state for the negative-caching experiment: caching
enabled with the default `CACHE_TTL = 300` and an empty route table. -/
def dbC1 : Db := { cache := some { entries := [], ttl := 300 }, store := [] }

/-- A database state with caching enabled, an empty cache and the given
route table: the state right after `Database.__init__`. -/
def freshDb (ttl : Nat) (store : List (Int × Int × String)) : Db :=
  { cache := some { entries := [], ttl := ttl }, store := store }

/-! ## Ingestion queue (`bot.py` `__init__` / `setup_handlers`, `config.py`) -/

/-- Default value of `QUEUE_MAX_SIZE` in `config.py`. -/
def QUEUE_MAX_SIZE : Nat := 1000

/-- An `asyncio.Queue` with its `maxsize` (0 means unbounded) and its
current items. -/
structure IngestQueue where
  maxsize : Nat
  items : List Int
deriving DecidableEq, Repr

/-- Outcome of one `await queue.put(event)`: the item is appended when the
queue is not full, otherwise the putting coroutine suspends until space
frees; `asyncio.Queue.put` never discards an item. -/
inductive PutOutcome
  | enqueued
  | suspended
deriving DecidableEq, Repr

/-- Whether the queue is full: only possible with a positive `maxsize`. -/
def IngestQueue.isFull (q : IngestQueue) : Bool :=
  0 < q.maxsize && q.maxsize ≤ q.items.length

/-- Embedding of `await self.message_queue.put(event)` as performed by the
`NewMessage` handler in `setup_handlers`. -/
def asyncioPut (q : IngestQueue) (e : Int) : IngestQueue × PutOutcome :=
  if q.isFull then (q, PutOutcome.suspended)
  else ({ q with items := q.items ++ [e] }, PutOutcome.enqueued)

/-- The queue built in `TelegramBot.__init__`: `asyncio.Queue()` with no
`maxsize` argument, hence unbounded (`maxsize = 0`). -/
def initialMessageQueue : IngestQueue := { maxsize := 0, items := [] }

/-- Enqueue a sequence of inbound events one by one, recording every put
outcome. -/
def enqueueAll (q : IngestQueue) : List Int → IngestQueue × List PutOutcome
  | [] => (q, [])
  | e :: es =>
    let r := asyncioPut q e
    let rest := enqueueAll r.1 es
    (rest.1, r.2 :: rest.2)

/-- Number of offered events that are absent from the final queue. -/
def droppedCount (q : IngestQueue) (events : List Int) : Nat :=
  (events.filter (fun e => !(q.items.contains e))).length

/-! ## Topic resolution (`bot.py` `handle_message`, lines 149-189) -/

/-- Reply metadata of a message (`telethon` `MessageReplyHeader`): the
`forum_topic` flag and the two optional message ids.  A `none` id is the
Python attribute holding `None`. -/
structure ReplyHeader where
  forum_topic : Bool
  reply_to_msg_id : Option Int
  reply_to_top_id : Option Int
deriving DecidableEq, Repr

/-- The part of a fetched or inbound message that topic resolution reads. -/
structure TgMessage where
  reply_to : Option ReplyHeader
deriving DecidableEq, Repr

/-- Python truthiness of an optional integer attribute. -/
def intTruthy : Option Int → Bool
  | none => false
  | some n => n != 0

/-- Embedding of the smart topic detection in `handle_message`.  `fetch`
models `client.get_messages(chat_id, ids=...)`: outer `none` is a raised
exception, `some none` is a `None` result (message not found), and
`some (some m)` is a fetched message.  The result is the final value of
the Python `topic_id` variable (which can itself become `None`, modelled
as `none`, when a traced header carries no `reply_to_msg_id`). -/
def resolveTopic (msg : TgMessage) (fetch : Int → Option (Option TgMessage)) :
    Option Int :=
  match msg.reply_to with
  | none => some 0
  | some reply =>
    if reply.forum_topic then
      if intTruthy reply.reply_to_msg_id then reply.reply_to_msg_id else some 0
    else
      match reply.reply_to_top_id with
      | none => some 0
      | some potential =>
        if potential != 0 then
          match fetch potential with
          | none => some potential
          | some none => some 0
          | some (some topMsg) =>
            match topMsg.reply_to with
            | none => some potential
            | some tr =>
              if tr.forum_topic then tr.reply_to_msg_id
              else if intTruthy tr.reply_to_top_id then tr.reply_to_top_id
              else some potential
        else some 0

/-- Message used to exhibit the behaviour of a fetch that finds no
message: a plain reply with `reply_to_top_id = 5`. -/
def c4msg : TgMessage :=
  { reply_to := some { forum_topic := false, reply_to_msg_id := none, reply_to_top_id := some 5 } }

/-- A verification fetch that succeeds but returns no message. -/
def c4fetch : Int → Option (Option TgMessage) := fun _ => some none

/-! ## Chat-id normalization and route lookup (`bot.py`, lines 142-200) -/

/-- Embedding of the id normalization in `handle_message`:
`if not str(chat_id).startswith('-100'): chat_id = int(f"-100{chat_id}")`.
A `none` result is the `ValueError` raised by `int` when the concatenated
text is not a valid decimal literal. -/
def normalizeChatId (chatId : Int) : Option Int :=
  if pyStartsWith (pyStrInt chatId) "-100" then some chatId
  else pyIntOfStr ("-100" ++ pyStrInt chatId)

/-- The route lookup performed by `handle_message`: normalize the chat id,
then call `Database.get_webhook` with the normalized id and the resolved
topic.  `none` means the handler raised before reaching the lookup. -/
def handleLookup (db : Db) (eventChatId t : Int) (now : Nat) :
    Option (Option String × Db × Nat) :=
  match normalizeChatId eventChatId with
  | none => none
  | some g => some (getWebhook db g t now)

/-! ## Delivery retry (`bot.py` `send_to_discord_with_retry`, lines 384-403) -/

/-- Outcome of one `send_to_discord` attempt: it returns `True`, returns
`False`, or raises an exception. -/
inductive SendOutcome
  | success
  | failure
  | error
deriving DecidableEq, Repr

/-- Embedding of the `for attempt in range(max_retries)` loop body:
return `True` on the first successful attempt; after a failed or raising
attempt sleep `(attempt + 1) * 2` seconds unless this was the last
attempt.  Returns (result, attempts performed, sleep durations). -/
def retryGo (f : Nat → SendOutcome) (maxRetries : Nat) :
    List Nat → Bool × Nat × List Nat
  | [] => (false, 0, [])
  | attempt :: rest =>
    match f attempt with
    | SendOutcome.success => (true, 1, [])
    | _ =>
      let r := retryGo f maxRetries rest
      let sleeps := if attempt < maxRetries - 1 then [(attempt + 1) * 2] else []
      (r.1, r.2.1 + 1, sleeps ++ r.2.2)

/-- Embedding of `send_to_discord_with_retry`: run the attempt loop over
`range(max_retries)`. -/
def sendWithRetry (f : Nat → SendOutcome) (maxRetries : Nat) :
    Bool × Nat × List Nat :=
  retryGo f maxRetries (List.range maxRetries)

/-- The sleep durations after `k` consecutive failed attempts:
`2, 4, ..., 2 * k`. -/
def backoffs (k : Nat) : List Nat := (List.range k).map (fun j => (j + 1) * 2)

/-- A delivery whose first two attempts fail and whose third succeeds. -/
def twoFailThenSuccess : Nat → SendOutcome :=
  fun n => if n < 2 then SendOutcome.failure else SendOutcome.success

/-! ## Payload assembly (`bot.py` `handle_message` 231-253, `send_to_discord` 405-419) -/

/-- A Discord embed as built by `handle_message`: the media image URL and
an optional description. -/
structure Embed where
  image_url : String
  description : Option String
deriving DecidableEq, Repr

/-- The JSON payload dict of `send_to_discord`; an optional field that is
`none` is a key absent from the dict. -/
structure Payload where
  username : String
  avatar_url : Option String
  content : Option String
  embeds : Option (List Embed)
deriving DecidableEq, Repr

/-- Python truthiness of an optional string. -/
def strTruthy : Option String → Bool
  | none => false
  | some s => s != ""

/-- Embedding of Python slicing `s[:n]` (by characters). -/
def pyTake (s : String) (n : Nat) : String := String.mk (s.data.take n)

/-- Embedding of the payload construction in `send_to_discord`:
`username[:80]` always; `avatar_url`, `content[:2000]` and `embeds[:10]`
only when the corresponding argument is truthy. -/
def buildPayload (username : String) (avatarUrl : Option String)
    (content : String) (embeds : Option (List Embed)) : Payload :=
  { username := pyTake username 80
    avatar_url := if strTruthy avatarUrl then avatarUrl else none
    content := if content ≠ "" then some (pyTake content 2000) else none
    embeds :=
      match embeds with
      | some es => if es ≠ [] then some (es.take 10) else none
      | none => none }

/-- The keys present in the serialized JSON dict, in construction order. -/
def payloadKeys (p : Payload) : List String :=
  ["username"]
    ++ (match p.avatar_url with | some _ => ["avatar_url"] | none => [])
    ++ (match p.content with | some _ => ["content"] | none => [])
    ++ (match p.embeds with | some _ => ["embeds"] | none => [])

/-- Embedding of the media/embed assembly in `handle_message` (231-243).
`mediaResult`: `none` = message has no media, `some none` = media present
but the download failed, `some (some url)` = downloaded media URL.  When
an embed is built and the text is non-empty, the text becomes the embed
description and the content is cleared. -/
def assembleMessage (content : String) (mediaResult : Option (Option String)) :
    String × List Embed :=
  match mediaResult with
  | none => (content, [])
  | some none => (content, [])
  | some (some url) =>
    if content ≠ "" then ("", [{ image_url := url, description := some content }])
    else (content, [{ image_url := url, description := none }])

/-- The payload actually delivered for a message: `handle_message` passes
`embeds if embeds else None` into `send_to_discord`. -/
def deliveredPayload (username : String) (avatarUrl : Option String)
    (content : String) (mediaResult : Option (Option String)) : Payload :=
  let p := assembleMessage content mediaResult
  buildPayload username avatarUrl p.1 (if p.2 ≠ [] then some p.2 else none)

/-- A 3000-character content string. -/
def longContent : String := String.mk (List.replicate 3000 'a')

/-- A 12-element embed list. -/
def manyEmbeds : List Embed :=
  List.replicate 12 { image_url := "u", description := none }

/-! ## Media file extension (`bot.py` `handle_media` 327-347, `get_media_extension` 360-374) -/

/-- Embedding of Python `sub in s` (contiguous substring test). -/
def charsInfix (sub : List Char) : List Char → Bool
  | [] => sub.isEmpty
  | c :: rest => charsStartWith sub (c :: rest) || charsInfix sub rest

/-- Embedding of Python `sub in s` on strings. -/
def strContains (s sub : String) : Bool := charsInfix sub.data s.data

/-- Split a character list at its last dot: returns the stem and the
suffix starting at the last `'.'`, when there is one. -/
def lastDotSplit : List Char → Option (List Char × List Char)
  | [] => none
  | c :: rest =>
    match lastDotSplit rest with
    | some r => some (c :: r.1, r.2)
    | none => if c = '.' then some ([], c :: rest) else none

/-- Embedding of `os.path.splitext(name)[1]` for a bare filename: the
suffix from the last dot, provided some character before that dot is not
itself a dot (so `".bashrc"` has no extension). -/
def splitextExt (name : String) : String :=
  match lastDotSplit name.data with
  | some r => if r.1.any (fun c => c ≠ '.') then String.mk r.2 else ""
  | none => ""

/-- Embedding of `os.path.splitext(attr.file_name)[1] or '.file'`. -/
def extOrFile (fn : String) : String :=
  let e := splitextExt fn
  if e = "" then ".file" else e

/-- Embedding of the attribute loop in `handle_media`: the first attribute
carrying a `file_name` decides the extension; the `for ... else` arm
yields `".file"` when no attribute has one. -/
def extFromAttrs : List (Option String) → String
  | [] => ".file"
  | some fn :: _ => extOrFile fn
  | none :: rest => extFromAttrs rest

/-- Embedding of the extension computation for documents in
`handle_media` (lines 331-345). -/
def docExt (mime : String) (attrs : List (Option String)) : String :=
  if strContains mime "image" then
    if strContains mime "jpeg" then ".jpg"
    else if strContains mime "png" then ".png"
    else ".jpg"
  else if strContains mime "video" then ".mp4"
  else if strContains mime "gif" then ".gif"
  else extFromAttrs attrs

/-- The kind of media object passed to `get_media_extension`. -/
inductive MediaKind
  | photo
  | document (mime : String)
  | other
deriving DecidableEq, Repr

/-- Embedding of `TelegramBot.get_media_extension` (lines 360-374). -/
def getMediaExtension : MediaKind → String
  | MediaKind.photo => ".jpg"
  | MediaKind.document mime =>
    if strContains mime "image" then
      if strContains mime "jpeg" then ".jpg" else ".png"
    else if strContains mime "video" then ".mp4"
    else if strContains mime "gif" then ".gif"
    else ".file"
  | MediaKind.other => ".file"

/-- The extension mapping exactly as the claim words it: `image/jpeg` to
`.jpg`, `image/png` to `.png`, `video/*` to `.mp4`, any MIME containing
`gif` to `.gif`, else the declared filename's extension, else `.file`. -/
def claimMediaExt (mime : String) (attrs : List (Option String)) : String :=
  if mime = "image/jpeg" then ".jpg"
  else if mime = "image/png" then ".png"
  else if pyStartsWith mime "video/" then ".mp4"
  else if strContains mime "gif" then ".gif"
  else extFromAttrs attrs

/-- Message used in the C3 witness: a plain reply whose
`reply_to_top_id` points at message 100. -/
def c3msg : TgMessage :=
  { reply_to := some { forum_topic := false, reply_to_msg_id := none, reply_to_top_id := some 100 } }

/-- The message fetched in the C3 witness: message 100 is itself a reply
flagged as targeting topic header 7. -/
def c3top : TgMessage :=
  { reply_to := some { forum_topic := true, reply_to_msg_id := some 7, reply_to_top_id := none } }

/-- Fetch used in the C3 witness. -/
def c3fetch : Int → Option (Option TgMessage) := fun i =>
  if i = 100 then some (some c3top) else none

/-! # Helper lemmas -/

theorem natDigitsAux_irrel (n : Nat) : ∀ (f g : Nat), n < f → n < g →
    natDigitsAux f n = natDigitsAux g n := by
  induction n using Nat.strong_induction_on with
  | _ n ih =>
    intro f g hf hg
    cases f with
    | zero => omega
    | succ f =>
      cases g with
      | zero => omega
      | succ g =>
        simp only [natDigitsAux]
        by_cases h10 : n < 10
        · rw [if_pos h10, if_pos h10]
        · have hn0 : 0 < n := by omega
          have hdiv : n / 10 < n := Nat.div_lt_self hn0 (by omega)
          rw [if_neg h10, if_neg h10, ih (n / 10) hdiv f g (by omega) (by omega)]

theorem natDigits_unfold (n : Nat) :
    natDigits n = if n < 10 then [digitChar n]
      else natDigits (n / 10) ++ [digitChar (n % 10)] := by
  show natDigitsAux (n + 1) n = _
  simp only [natDigitsAux]
  by_cases h10 : n < 10
  · rw [if_pos h10, if_pos h10]
  · have hn0 : 0 < n := by omega
    have hdiv : n / 10 < n := Nat.div_lt_self hn0 (by omega)
    rw [if_neg h10, if_neg h10,
      natDigitsAux_irrel (n / 10) n (n / 10 + 1) (by omega) (by omega)]
    rfl

theorem digitChar_toNat (n : Nat) (h : n < 10) : (digitChar n).toNat = 48 + n := by
  interval_cases n <;> rfl

theorem isDigitChar_digitChar (n : Nat) (h : n < 10) :
    isDigitChar (digitChar n) = true := by
  interval_cases n <;> rfl

theorem foldl_digits_from (a : Nat) (cs : List Char) :
    cs.foldl (fun x c => x * 10 + (c.toNat - 48)) a =
      a * 10 ^ cs.length + digitsVal cs := by
  induction cs generalizing a with
  | nil => simp [digitsVal]
  | cons c cs ih =>
    simp only [List.foldl_cons, List.length_cons, digitsVal] at *
    rw [ih (a * 10 + (c.toNat - 48)), ih (0 * 10 + (c.toNat - 48))]
    ring

theorem digitsVal_append (xs ys : List Char) :
    digitsVal (xs ++ ys) = digitsVal xs * 10 ^ ys.length + digitsVal ys := by
  simp only [digitsVal, List.foldl_append]
  rw [foldl_digits_from]
  rfl

theorem digitsVal_natDigits (n : Nat) : digitsVal (natDigits n) = n := by
  induction n using Nat.strong_induction_on with
  | _ n ih =>
    rw [natDigits_unfold]
    by_cases h10 : n < 10
    · rw [if_pos h10]
      simp [digitsVal, digitChar_toNat n h10]
    · rw [if_neg h10]
      have hn0 : 0 < n := by omega
      have hdiv : n / 10 < n := Nat.div_lt_self hn0 (by omega)
      have hm : n % 10 < 10 := Nat.mod_lt n (by omega)
      rw [digitsVal_append, ih (n / 10) hdiv]
      simp [digitsVal, digitChar_toNat (n % 10) hm]
      omega

theorem natDigits_all_digit (n : Nat) : (natDigits n).all isDigitChar = true := by
  induction n using Nat.strong_induction_on with
  | _ n ih =>
    rw [natDigits_unfold]
    by_cases h10 : n < 10
    · simp [h10, isDigitChar_digitChar n h10]
    · have hn0 : 0 < n := by omega
      have hdiv : n / 10 < n := Nat.div_lt_self hn0 (by omega)
      have hm : n % 10 < 10 := Nat.mod_lt n (by omega)
      simp [h10, List.all_append, ih (n / 10) hdiv, isDigitChar_digitChar (n % 10) hm]

theorem natDigits_prepend (a : Nat) (ha : 0 < a) (b : Nat) :
    natDigits (a * 10 ^ (natDigits b).length + b) = natDigits a ++ natDigits b := by
  induction b using Nat.strong_induction_on with
  | _ b ih =>
    by_cases h10 : b < 10
    · have hlen : (natDigits b).length = 1 := by
        rw [natDigits_unfold, if_pos h10]; rfl
      rw [hlen]
      have hN : ¬ (a * 10 ^ 1 + b < 10) := by
        rw [pow_one]; omega
      rw [natDigits_unfold (a * 10 ^ 1 + b), if_neg hN]
      have hdiv : (a * 10 ^ 1 + b) / 10 = a := by rw [pow_one]; omega
      have hmod : (a * 10 ^ 1 + b) % 10 = b := by rw [pow_one]; omega
      rw [hdiv, hmod, natDigits_unfold b, if_pos h10]
    · have hb0 : 0 < b := by omega
      have hdivb : b / 10 < b := Nat.div_lt_self hb0 (by omega)
      have hunf : natDigits b = natDigits (b / 10) ++ [digitChar (b % 10)] := by
        rw [natDigits_unfold b, if_neg h10]
      have hlen : (natDigits b).length = (natDigits (b / 10)).length + 1 := by
        rw [hunf]; simp
      rw [hlen]
      have hpow : (10 : Nat) ^ ((natDigits (b / 10)).length + 1) =
          10 ^ (natDigits (b / 10)).length * 10 := pow_succ 10 _
      have hpos : 0 < (10 : Nat) ^ (natDigits (b / 10)).length :=
        pow_pos (by omega) _
      have hN : ¬ (a * 10 ^ ((natDigits (b / 10)).length + 1) + b < 10) := by
        rw [hpow]
        nlinarith
      rw [natDigits_unfold (a * 10 ^ ((natDigits (b / 10)).length + 1) + b), if_neg hN]
      have hdiv : (a * 10 ^ ((natDigits (b / 10)).length + 1) + b) / 10 =
          a * 10 ^ (natDigits (b / 10)).length + b / 10 := by
        rw [hpow, ← Nat.mul_assoc]; omega
      have hmod : (a * 10 ^ ((natDigits (b / 10)).length + 1) + b) % 10 = b % 10 := by
        rw [hpow, ← Nat.mul_assoc]; omega
      rw [hdiv, hmod, ih (b / 10) hdivb, hunf, List.append_assoc]

theorem pyStrInt_nonneg (i : Int) (h : 0 ≤ i) :
    pyStrInt i = String.mk (natDigits i.toNat) := by
  rw [pyStrInt, if_neg (by omega)]

theorem normalizeChatId_nonneg (chatId : Int) (h0 : 0 ≤ chatId)
    (hns : pyStartsWith (pyStrInt chatId) "-100" = false) :
    normalizeChatId chatId =
      some (-(100 * 10 ^ (natDigits chatId.toNat).length + chatId)) ∧
    pyStrInt (-(100 * 10 ^ (natDigits chatId.toNat).length + chatId)) =
      "-100" ++ pyStrInt chatId := by
  obtain ⟨m, rfl⟩ : ∃ m : Nat, chatId = (m : Int) :=
    ⟨chatId.toNat, (Int.toNat_of_nonneg h0).symm⟩
  rw [Int.toNat_ofNat] at *
  have hdata : ("-100" ++ pyStrInt (m : Int)).data =
      '-' :: '1' :: '0' :: '0' :: natDigits m := by
    rw [pyStrInt_nonneg _ (Int.natCast_nonneg m), Int.toNat_ofNat]
    rfl
  have hall : (('1' :: '0' :: '0' :: natDigits m).all isDigitChar) = true := by
    simp only [List.all_cons]
    rw [natDigits_all_digit m]
    decide
  have hval : digitsVal ('1' :: '0' :: '0' :: natDigits m) =
      100 * 10 ^ (natDigits m).length + m := by
    have hsplit : ('1' :: '0' :: '0' :: natDigits m) =
        ['1', '0', '0'] ++ natDigits m := rfl
    have h100v : digitsVal ['1', '0', '0'] = 100 := by decide
    rw [hsplit, digitsVal_append, digitsVal_natDigits, h100v]
  constructor
  · rw [normalizeChatId, if_neg (by simp [hns])]
    simp only [pyIntOfStr, hdata]
    rw [if_pos trivial, if_pos ⟨List.cons_ne_nil _ _, hall⟩, hval]
    congr 1
    push_cast
    ring
  · have hneg : -(100 * 10 ^ (natDigits m).length + (m : Int)) < 0 := by
      have hp : (0 : Int) < 100 * 10 ^ (natDigits m).length + (m : Int) := by positivity
      omega
    rw [pyStrInt, if_pos hneg]
    have hx : -(-(100 * 10 ^ (natDigits m).length + (m : Int))) =
        ((100 * 10 ^ (natDigits m).length + m : Nat) : Int) := by
      push_cast
      ring
    rw [hx, Int.toNat_ofNat, natDigits_prepend 100 (by omega) m]
    rw [pyStrInt_nonneg _ (Int.natCast_nonneg m), Int.toNat_ofNat]
    have h100 : natDigits 100 = ['1', '0', '0'] := by decide
    rw [h100]
    rfl

theorem enqueueAll_unbounded (q : IngestQueue) (es : List Int) (h : q.maxsize = 0) :
    enqueueAll q es =
      ({ q with items := q.items ++ es },
        List.replicate es.length PutOutcome.enqueued) := by
  induction es generalizing q with
  | nil => simp [enqueueAll]
  | cons e es ih =>
    have hq : q.isFull = false := by simp [IngestQueue.isFull, h]
    simp only [enqueueAll, asyncioPut, hq, Bool.false_eq_true, if_false,
      List.length_cons, List.replicate_succ]
    rw [ih { q with items := q.items ++ [e] } h]
    simp

theorem retryGo_success_cons (f : Nat → SendOutcome) (max a : Nat) (rest : List Nat)
    (h : f a = SendOutcome.success) :
    retryGo f max (a :: rest) = (true, 1, []) := by
  simp [retryGo, h]

theorem retryGo_fail_cons (f : Nat → SendOutcome) (max a : Nat) (rest : List Nat)
    (h : f a ≠ SendOutcome.success) :
    retryGo f max (a :: rest) =
      ((retryGo f max rest).1, (retryGo f max rest).2.1 + 1,
        (if a < max - 1 then [(a + 1) * 2] else []) ++ (retryGo f max rest).2.2) := by
  cases hfa : f a with
  | success => exact absurd hfa h
  | failure => simp [retryGo, hfa]
  | error => simp [retryGo, hfa]

theorem retryGo_all_fail (f : Nat → SendOutcome) (max : Nat) (l : List Nat)
    (h : ∀ a ∈ l, f a ≠ SendOutcome.success) :
    retryGo f max l =
      (false, l.length,
        l.filterMap (fun a => if a < max - 1 then some ((a + 1) * 2) else none)) := by
  induction l with
  | nil => rfl
  | cons a l ih =>
    rw [retryGo_fail_cons f max a l (h a (by simp)),
      ih (fun b hb => h b (by simp [hb]))]
    simp only [List.filterMap_cons]
    by_cases ha : a < max - 1
    · simp [ha]
    · simp [ha]

theorem retryGo_first_success (f : Nat → SendOutcome) (max : Nat) (l1 : List Nat)
    (k : Nat) (l2 : List Nat)
    (h1 : ∀ a ∈ l1, f a ≠ SendOutcome.success) (hk : f k = SendOutcome.success) :
    retryGo f max (l1 ++ k :: l2) =
      (true, l1.length + 1,
        l1.filterMap (fun a => if a < max - 1 then some ((a + 1) * 2) else none)) := by
  induction l1 with
  | nil => simp [retryGo_success_cons f max k l2 hk]
  | cons a l1 ih =>
    rw [List.cons_append, retryGo_fail_cons f max a _ (h1 a (by simp)),
      ih (fun b hb => h1 b (by simp [hb]))]
    simp only [List.filterMap_cons]
    by_cases ha : a < max - 1
    · simp [ha, Nat.add_assoc]
    · simp [ha, Nat.add_assoc]

theorem filterMap_backoff_all_lt (m : Nat) (l : List Nat) (h : ∀ a ∈ l, a < m) :
    l.filterMap (fun a => if a < m then some ((a + 1) * 2) else none) =
      l.map (fun a => (a + 1) * 2) := by
  induction l with
  | nil => rfl
  | cons a l ih =>
    simp only [List.filterMap_cons, if_pos (h a (by simp)), List.map_cons]
    rw [ih (fun b hb => h b (by simp [hb]))]

theorem backoffs_chain (k : Nat) :
    List.Chain' (fun a b => a < b) (backoffs k) := by
  apply List.Pairwise.chain'
  exact (List.pairwise_lt_range k).map _ (fun a b hab => by omega)

theorem range_split_at (k max : Nat) (h : k < max) :
    List.range max =
      List.range k ++ k :: (List.range (max - k - 1)).map (fun i => k + 1 + i) := by
  have hmax : max = k + (1 + (max - k - 1)) := by omega
  conv_lhs => rw [hmax]
  rw [List.range_add, List.range_add]
  have h1 : List.range 1 = [0] := rfl
  rw [h1]
  simp only [List.map_append, List.map_map, List.map_cons, List.map_nil,
    List.singleton_append, Nat.add_zero, Function.comp]
  have hfn : ((fun x => k + x) ∘ fun x => 1 + x) = (fun i => k + 1 + i) := by
    funext i
    simp only [Function.comp_apply]
    omega
  rw [hfn]

/-! # Claim theorems -/

/-- C1: negative caching is ineffective in the code.  With an empty store
and caching enabled, the first lookup of `(5, 0)` at time 100 queries the
store once and writes the `None` result into the cache, but the second
lookup at time 150 (well within the 300-second TTL) queries the store
again (1 query, not 0), because `SimpleCache.get` returns the cached
`None` as `None` and `get_webhook` treats that as a cache miss.  The
claim's "exactly one store query across two consecutive lookups" is
violated: the code performs two. -/
theorem C1_negative_cache_ineffective :
    (getWebhook dbC1 5 0 100).1 = none ∧
    (getWebhook dbC1 5 0 100).2.2 = 1 ∧
    cacheEntryOf (getWebhook dbC1 5 0 100).2.1 (webhookKey 5 0) = some (none, 100) ∧
    (getWebhook (getWebhook dbC1 5 0 100).2.1 5 0 150).2.2 = 1 ∧
    (getWebhook (getWebhook dbC1 5 0 100).2.1 5 0 150).1 = none := by
  decide

/-- C2 counterexample: the ingestion queue is created as `asyncio.Queue()`
with no `maxsize`, so it is unbounded and `QUEUE_MAX_SIZE` is never
applied to it.  Enqueuing `N + 1 = 1001` events with no workers running
enqueues all 1001 of them: no event is dropped (0 drops, not the claimed
exactly 1), and no `skipped` counter exists in the code to increment. -/
theorem C2_counterexample :
    initialMessageQueue.maxsize = 0 ∧
    initialMessageQueue.maxsize ≠ QUEUE_MAX_SIZE ∧
    (enqueueAll initialMessageQueue ((List.range 1001).map Int.ofNat)).1.items.length = 1001 ∧
    (enqueueAll initialMessageQueue ((List.range 1001).map Int.ofNat)).2 =
      List.replicate 1001 PutOutcome.enqueued ∧
    droppedCount (enqueueAll initialMessageQueue ((List.range 1001).map Int.ofNat)).1
      ((List.range 1001).map Int.ofNat) = 0 ∧
    ¬ droppedCount (enqueueAll initialMessageQueue ((List.range 1001).map Int.ofNat)).1
      ((List.range 1001).map Int.ofNat) = 1 := by
  have he := enqueueAll_unbounded initialMessageQueue
    ((List.range 1001).map Int.ofNat) rfl
  have hitems : (enqueueAll initialMessageQueue
      ((List.range 1001).map Int.ofNat)).1.items = (List.range 1001).map Int.ofNat := by
    rw [he]
    simp [initialMessageQueue]
  have hdrop : droppedCount (enqueueAll initialMessageQueue
      ((List.range 1001).map Int.ofNat)).1 ((List.range 1001).map Int.ofNat) = 0 := by
    rw [droppedCount, hitems, List.length_eq_zero]
    rw [List.filter_eq_nil_iff]
    intro a ha
    simp [List.elem_eq_mem, ha]
  refine ⟨rfl, by decide, ?_, by rw [he]; simp, hdrop, by omega⟩
  rw [hitems]
  simp

/-- C2 (corrected): enqueuing never drops an event and never blocks the
handler.  For any queue with `maxsize = 0` — and the bot's queue is
created that way, while `QUEUE_MAX_SIZE = 1000` is never used — every
offered event is appended to the queue, every put reports `enqueued`,
and no offered event is missing from the final queue. -/
theorem C2_queue_never_drops (q : IngestQueue) (es : List Int) (h : q.maxsize = 0) :
    (enqueueAll q es).1.items = q.items ++ es ∧
    (enqueueAll q es).2 = List.replicate es.length PutOutcome.enqueued ∧
    droppedCount (enqueueAll q es).1 es = 0 ∧
    initialMessageQueue.maxsize = 0 ∧ QUEUE_MAX_SIZE = 1000 := by
  have he := enqueueAll_unbounded q es h
  refine ⟨by rw [he], by rw [he], ?_, rfl, rfl⟩
  rw [droppedCount, List.length_eq_zero, List.filter_eq_nil_iff]
  intro a ha
  have hmem : a ∈ (enqueueAll q es).1.items := by
    rw [he]
    simp [ha]
  simp [List.elem_eq_mem, hmem]

/-- C2 witness: enqueuing three events into the bot's freshly created
queue keeps all three, reports three `enqueued` outcomes and drops
nothing. -/
theorem C2_witness :
    (enqueueAll initialMessageQueue [1, 2, 3]).1.items = [1, 2, 3] ∧
    (enqueueAll initialMessageQueue [1, 2, 3]).2 =
      List.replicate 3 PutOutcome.enqueued ∧
    droppedCount (enqueueAll initialMessageQueue [1, 2, 3]).1 [1, 2, 3] = 0 := by
  have h := C2_queue_never_drops initialMessageQueue [1, 2, 3] rfl
  exact ⟨by rw [h.1]; rfl, h.2.1, h.2.2.1⟩

/-- C3: when a message is not itself flagged as replying to a topic
header but carries a `reply_to_top_id` candidate `X`, and the
verification fetch of `X` shows that `X` is a reply flagged as targeting
topic header `T`, topic resolution returns `T` (the root of the reply
chain), not `X`. -/
theorem C3_trace_to_root (m : TgMessage) (r : ReplyHeader)
    (fetch : Int → Option (Option TgMessage)) (X T : Int)
    (xm : TgMessage) (xr : ReplyHeader)
    (hm : m.reply_to = some r) (hft : r.forum_topic = false)
    (htop : r.reply_to_top_id = some X) (hX : X ≠ 0)
    (hfetch : fetch X = some (some xm)) (hxr : xm.reply_to = some xr)
    (hxft : xr.forum_topic = true) (hxid : xr.reply_to_msg_id = some T) :
    resolveTopic m fetch = some T := by
  simp [resolveTopic, hm, hft, htop, hfetch, hxr, hxft, hxid, hX]

/-- C3 witness: a concrete reply chain.  The message replies with
`reply_to_top_id = 100`; message 100 is itself flagged as a reply to
topic header 7; resolution yields 7. -/
theorem C3_witness : resolveTopic c3msg c3fetch = some 7 := by
  have h := C3_trace_to_root c3msg
    { forum_topic := false, reply_to_msg_id := none, reply_to_top_id := some 100 }
    c3fetch 100 7 c3top
    { forum_topic := true, reply_to_msg_id := some 7, reply_to_top_id := none }
    rfl rfl rfl (by decide) rfl rfl rfl rfl
  exact h

/-- C4 counterexample: for a message whose reply carries the candidate
`reply_to_top_id = 5`, a verification fetch that succeeds but finds no
message (`get_messages` returns `None`) makes resolution return `0`, not
the candidate 5, contradicting the claim that a failed verification
always yields the candidate as-is. -/
theorem C4_counterexample :
    resolveTopic c4msg c4fetch = some 0 ∧ resolveTopic c4msg c4fetch ≠ some 5 := by
  decide

/-- C4 (corrected): when the verification fetch raises, resolution falls
back to the candidate as-is; but when the fetch succeeds and returns no
message, resolution returns 0 (the initial default), not the candidate. -/
theorem C4_fallback_behaviour (m : TgMessage) (r : ReplyHeader)
    (fetch : Int → Option (Option TgMessage)) (X : Int)
    (hm : m.reply_to = some r) (hft : r.forum_topic = false)
    (htop : r.reply_to_top_id = some X) (hX : X ≠ 0) :
    (fetch X = none → resolveTopic m fetch = some X) ∧
    (fetch X = some none → resolveTopic m fetch = some 0) := by
  constructor <;> intro hf <;> simp [resolveTopic, hm, hft, htop, hf, hX]

/-- C4 witness: the two fallback behaviours at the concrete message with
candidate 5: a raising fetch yields 5, a fetch returning no message
yields 0. -/
theorem C4_witness :
    resolveTopic c4msg (fun _ => none) = some 5 ∧
    resolveTopic c4msg c4fetch = some 0 := by
  have h1 := C4_fallback_behaviour c4msg
    { forum_topic := false, reply_to_msg_id := none, reply_to_top_id := some 5 }
    (fun _ => none) 5 rfl rfl rfl (by decide)
  have h2 := C4_fallback_behaviour c4msg
    { forum_topic := false, reply_to_msg_id := none, reply_to_top_id := some 5 }
    c4fetch 5 rfl rfl rfl (by decide)
  exact ⟨h1.1 rfl, h2.2 rfl⟩

/-- C5 counterexample: a negative chat id not in `-100` form, such as a
basic-group id `-123`, is not normalized by prefixing: the code computes
`int("-100" + "-123")`, which raises `ValueError`, so the handler aborts
and no route lookup is performed at all. -/
theorem C5_counterexample :
    pyStartsWith (pyStrInt (-123)) "-100" = false ∧
    normalizeChatId (-123) = none ∧
    handleLookup { cache := none, store := [] } (-123) 0 0 = none := by
  decide

/-- C5 (corrected): for every nonnegative source chat id whose string
form does not start with `-100`, the id is normalized by prefixing `-100`
(the normalized id's decimal form is exactly `"-100"` prepended to the
original's), and the route lookup is performed with the normalized id;
for negative ids not in `-100` form the `int` conversion raises instead
and no lookup happens. -/
theorem C5_normalization (chatId : Int) (h0 : 0 ≤ chatId)
    (hns : pyStartsWith (pyStrInt chatId) "-100" = false) :
    ∃ g, normalizeChatId chatId = some g ∧
      pyStrInt g = "-100" ++ pyStrInt chatId ∧
      g = -(100 * 10 ^ (natDigits chatId.toNat).length + chatId) ∧
      ∀ db t now, handleLookup db chatId t now = some (getWebhook db g t now) := by
  obtain ⟨h1, h2⟩ := normalizeChatId_nonneg chatId h0 hns
  refine ⟨-(100 * 10 ^ (natDigits chatId.toNat).length + chatId), h1, h2, rfl, ?_⟩
  intro db t now
  simp only [handleLookup, h1]

/-- C5 witness: the spec's own example, group `123456789`, normalizes to
`-100123456789`, whose decimal form is the original prefixed with
`-100`. -/
theorem C5_witness :
    normalizeChatId 123456789 = some (-100123456789) ∧
    pyStrInt (-100123456789) = "-100123456789" := by
  obtain ⟨g, h1, h2, h3, _⟩ := C5_normalization 123456789 (by decide) (by decide)
  have hg : g = -100123456789 := by
    rw [h3]
    decide
  rw [hg] at h1 h2
  refine ⟨h1, ?_⟩
  rw [h2]
  decide

/-- C6: `send_to_discord_with_retry` performs at most `max_retries`
attempts; it returns `true` after `k + 1` attempts when the first `k`
attempts fail (by returning `False` or raising) and attempt `k`
succeeds, having slept the linearly increasing delays `2, 4, ..., 2k`
between consecutive attempts; it returns `false` after exactly
`max_retries` attempts when every attempt fails; and the recorded
inter-attempt delays are always strictly increasing. -/
theorem C6_retry_behaviour (f : Nat → SendOutcome) (max : Nat) :
    (∀ k, k < max → (∀ j, j < k → f j ≠ SendOutcome.success) →
      f k = SendOutcome.success →
      sendWithRetry f max = (true, k + 1, backoffs k)) ∧
    ((∀ k, k < max → f k ≠ SendOutcome.success) →
      sendWithRetry f max = (false, max, backoffs (max - 1))) ∧
    List.Chain' (fun a b => a < b) (sendWithRetry f max).2.2 := by
  have hsucc : ∀ k, k < max → (∀ j, j < k → f j ≠ SendOutcome.success) →
      f k = SendOutcome.success →
      sendWithRetry f max = (true, k + 1, backoffs k) := by
    intro k hk hbefore hksucc
    rw [sendWithRetry, range_split_at k max hk,
      retryGo_first_success f max (List.range k) k _
        (fun a ha => hbefore a (List.mem_range.mp ha)) hksucc]
    rw [filterMap_backoff_all_lt (max - 1) (List.range k)
      (fun a ha => by have := List.mem_range.mp ha; omega)]
    simp [backoffs, List.length_range]
  have hfail : (∀ k, k < max → f k ≠ SendOutcome.success) →
      sendWithRetry f max = (false, max, backoffs (max - 1)) := by
    intro hall
    rw [sendWithRetry, retryGo_all_fail f max (List.range max)
      (fun a ha => hall a (List.mem_range.mp ha))]
    cases max with
    | zero => rfl
    | succ n =>
      rw [List.range_succ, List.filterMap_append,
        filterMap_backoff_all_lt (n + 1 - 1) (List.range n)
          (fun a ha => by have := List.mem_range.mp ha; omega)]
      simp [backoffs, List.length_range]
  refine ⟨hsucc, hfail, ?_⟩
  by_cases hex : ∃ k, k < max ∧ f k = SendOutcome.success
  · classical
    obtain ⟨k0, hk0⟩ := hex
    have hfind := Nat.find_spec (⟨k0, hk0⟩ : ∃ k, k < max ∧ f k = SendOutcome.success)
    have hmin : ∀ j, j < Nat.find (⟨k0, hk0⟩ :
        ∃ k, k < max ∧ f k = SendOutcome.success) → f j ≠ SendOutcome.success := by
      intro j hj hcontra
      have hlt : j < max := lt_trans hj (lt_of_lt_of_le hfind.1 (le_refl max))
      exact Nat.find_min _ hj ⟨hlt, hcontra⟩
    rw [hsucc _ hfind.1 hmin hfind.2]
    exact backoffs_chain _
  · push_neg at hex
    rw [hfail (fun k hk => hex k hk)]
    exact backoffs_chain _

/-- C6 witness: a delivery whose first two attempts fail and whose third
succeeds, run with `max_retries = 3`, returns `true`, performs exactly 3
attempts, and sleeps 2 then 4 seconds — strictly increasing delays. -/
theorem C6_witness :
    sendWithRetry twoFailThenSuccess 3 = (true, 3, [2, 4]) ∧
    List.Chain' (fun a b => a < b) [2, 4] := by
  have h := (C6_retry_behaviour twoFailThenSuccess 3).1 2 (by omega)
    (fun j hj => by
      interval_cases j <;> decide)
    (by decide)
  constructor
  · rw [h]
    rfl
  · refine List.chain'_cons.mpr ⟨by omega, ?_⟩
    exact List.chain'_singleton 4

/-- C7: for every outgoing payload the username is clamped to at most 80
characters, the content to at most 2000 and the embed list to at most 10;
a 3000-character content becomes exactly 2000 characters and a 12-element
embed list becomes 10; and absent optional fields (avatar_url, content,
embeds) are omitted from the serialized JSON (their keys are not present)
rather than sent as null or empty, while a present avatar_url is kept. -/
theorem C7_payload_clamping :
    (∀ u a c e, (buildPayload u a c e).username.length ≤ 80 ∧
      ((buildPayload u a c e).content.getD "").length ≤ 2000 ∧
      ((buildPayload u a c e).embeds.getD []).length ≤ 10) ∧
    (buildPayload "bob" none longContent (some manyEmbeds)).content =
      some (String.mk (List.replicate 2000 'a')) ∧
    ((buildPayload "bob" none longContent (some manyEmbeds)).content.getD "").length
      = 2000 ∧
    ((buildPayload "bob" none longContent (some manyEmbeds)).embeds.getD []).length
      = 10 ∧
    buildPayload "bob" none "" none =
      { username := "bob", avatar_url := none, content := none, embeds := none } ∧
    payloadKeys (buildPayload "bob" none "" none) = ["username"] ∧
    (buildPayload "bob" (some "http://h/x.jpg") "hi" none).avatar_url =
      some "http://h/x.jpg" := by
  have hgen : ∀ u a c e, (buildPayload u a c e).username.length ≤ 80 ∧
      ((buildPayload u a c e).content.getD "").length ≤ 2000 ∧
      ((buildPayload u a c e).embeds.getD []).length ≤ 10 := by
    intro u a c e
    refine ⟨?_, ?_, ?_⟩
    · simp [buildPayload, pyTake]
    · by_cases hc : c ≠ ""
      · simp [buildPayload, hc, pyTake]
      · simp [buildPayload, hc]
    · match e with
      | none => simp [buildPayload]
      | some es =>
        by_cases he : es ≠ []
        · simp [buildPayload, he]
        · simp [buildPayload, he]
  have hlc : longContent ≠ "" := by decide
  have hme : manyEmbeds ≠ [] := by decide
  have hdata3000 : longContent.data = List.replicate 3000 'a' := rfl
  have hcontent : (buildPayload "bob" none longContent (some manyEmbeds)).content =
      some (String.mk (List.replicate 2000 'a')) := by
    simp only [buildPayload, if_pos hlc, pyTake, hdata3000]
    rw [List.take_replicate]
    norm_num
  refine ⟨hgen, hcontent, ?_, ?_, by decide, by decide, by decide⟩
  · rw [hcontent, Option.getD_some, String.length_mk, List.length_replicate]
  · simp only [buildPayload, if_pos hme]
    have h12 : manyEmbeds.take 10 =
        List.replicate 10 { image_url := "u", description := none } := by decide
    simp [h12]

/-- C10: for every message that has both non-empty text and media whose
download succeeds, the text is moved into the embed's description and the
delivered payload has no top-level content field; in particular the text
never appears in both the content and an embed description of one
payload. -/
theorem C10_text_moved_to_embed (u : String) (a : Option String)
    (content url : String) (h : content ≠ "") :
    (deliveredPayload u a content (some (some url))).content = none ∧
    (deliveredPayload u a content (some (some url))).embeds =
      some [{ image_url := url, description := some content }] := by
  simp [deliveredPayload, assembleMessage, buildPayload, h]

/-- C10 witness: a concrete message with text "hi" and a downloaded media
URL: the delivered payload carries the text only inside the embed. -/
theorem C10_witness :
    (deliveredPayload "bob" none "hi" (some (some "http://h/m.jpg"))).content = none ∧
    (deliveredPayload "bob" none "hi" (some (some "http://h/m.jpg"))).embeds =
      some [{ image_url := "http://h/m.jpg", description := some "hi" }] :=
  C10_text_moved_to_embed "bob" none "hi" "http://h/m.jpg" (by decide)

/-- C8: wildcard fallback.  With an empty cache and a store containing
only the wildcard route `(G, -1) -> E`, looking up `(G, 7)` returns `E`
and looking up `(G, 0)` returns `None` (the wildcard applies only to
non-zero topics); and whenever an exact `(G, T)` row exists, its endpoint
is returned with a single SQL query, i.e. without consulting the
wildcard. -/
theorem C8_wildcard_fallback (G : Int) (E : String) (now ttl : Nat) :
    (getWebhook (freshDb ttl [(G, -1, E)]) G 7 now).1 = some E ∧
    (getWebhook (freshDb ttl [(G, -1, E)]) G 0 now).1 = none ∧
    (∀ (store : List (Int × Int × String)) (T : Int) (u : String),
      storeFind store G T = some u →
      (getWebhook (freshDb ttl store) G T now).1 = some u ∧
      (getWebhook (freshDb ttl store) G T now).2.2 = 1) := by
  have hmiss7 : storeFind [(G, -1, E)] G 7 = none := by
    simp [storeFind, List.find?]
  have hmiss0 : storeFind [(G, -1, E)] G 0 = none := by
    simp [storeFind, List.find?]
  have hwild : storeFind [(G, -1, E)] G (-1) = some E := by
    simp [storeFind, List.find?]
  refine ⟨?_, ?_, ?_⟩
  · simp [getWebhook, freshDb, cacheLookup, queryStore, hmiss7, hwild]
  · simp [getWebhook, freshDb, cacheLookup, queryStore, hmiss0]
  · intro store T u hf
    constructor
    · simp [getWebhook, freshDb, cacheLookup, queryStore, hf]
    · simp [getWebhook, freshDb, cacheLookup, queryStore, hf]

/-- C8 witness: the wildcard store `[(1, -1) -> "e"]` answers topic 7
with "e" and topic 0 with nothing; an exact row `(1, 4) -> "e"` is found
with one query. -/
theorem C8_witness :
    (getWebhook (freshDb 300 [(1, -1, "e")]) 1 7 0).1 = some "e" ∧
    (getWebhook (freshDb 300 [(1, -1, "e")]) 1 0 0).1 = none ∧
    (getWebhook (freshDb 300 [(1, 4, "e")]) 1 4 0).1 = some "e" ∧
    (getWebhook (freshDb 300 [(1, 4, "e")]) 1 4 0).2.2 = 1 := by
  have h := C8_wildcard_fallback 1 "e" 0 300
  have h3 := h.2.2 [(1, 4, "e")] 4 "e" (by decide)
  exact ⟨h.1, h.2.1, h3.1, h3.2⟩

/-- C9 counterexample: a document with declared MIME type `image/gif`.
The claim's mapping ("any MIME containing gif yields .gif") prescribes
`.gif`, but `handle_media` tests `'image' in mime` first and returns
`.jpg`; the unused helper `get_media_extension` returns `.png` for it.
Neither yields `.gif`. -/
theorem C9_counterexample :
    docExt "image/gif" [] = ".jpg" ∧
    getMediaExtension (MediaKind.document "image/gif") = ".png" ∧
    claimMediaExt "image/gif" [] = ".gif" ∧
    docExt "image/gif" [] ≠ claimMediaExt "image/gif" [] := by
  decide

/-- C9 (corrected): the extension of a document is derived from the
declared MIME type by substring tests in this order: a MIME containing
"image" yields `.jpg` when it contains "jpeg", else `.png` when it
contains "png", else `.jpg` (so `image/gif` yields `.jpg`); otherwise a
MIME containing "video" yields `.mp4`; otherwise a MIME containing "gif"
yields `.gif`; otherwise the extension of the first declared attachment
filename is used, with `.file` when that extension is empty or when no
attribute declares a filename. -/
theorem C9_extension_mapping (mime : String) (attrs : List (Option String)) :
    (mime = "image/jpeg" → docExt mime attrs = ".jpg") ∧
    (mime = "image/png" → docExt mime attrs = ".png") ∧
    (strContains mime "image" = true → strContains mime "jpeg" = false →
      strContains mime "png" = false → docExt mime attrs = ".jpg") ∧
    (strContains mime "image" = false → strContains mime "video" = true →
      docExt mime attrs = ".mp4") ∧
    (strContains mime "image" = false → strContains mime "video" = false →
      strContains mime "gif" = true → docExt mime attrs = ".gif") ∧
    (strContains mime "image" = false → strContains mime "video" = false →
      strContains mime "gif" = false → docExt mime attrs = extFromAttrs attrs) ∧
    extFromAttrs [] = ".file" ∧
    (∀ fn rest, splitextExt fn ≠ "" →
      extFromAttrs (some fn :: rest) = splitextExt fn) ∧
    (∀ fn rest, splitextExt fn = "" →
      extFromAttrs (some fn :: rest) = ".file") ∧
    (∀ rest, extFromAttrs (none :: rest) = extFromAttrs rest) := by
  refine ⟨?_, ?_, ?_, ?_, ?_, ?_, rfl, ?_, ?_, fun rest => rfl⟩
  · intro h
    subst h
    have h1 : strContains "image/jpeg" "image" = true := by decide
    have h2 : strContains "image/jpeg" "jpeg" = true := by decide
    simp [docExt, h1, h2]
  · intro h
    subst h
    have h1 : strContains "image/png" "image" = true := by decide
    have h2 : strContains "image/png" "jpeg" = false := by decide
    have h3 : strContains "image/png" "png" = true := by decide
    simp [docExt, h1, h2, h3]
  · intro h1 h2 h3
    simp [docExt, h1, h2, h3]
  · intro h1 h2
    simp [docExt, h1, h2]
  · intro h1 h2 h3
    simp [docExt, h1, h2, h3]
  · intro h1 h2 h3
    simp [docExt, h1, h2, h3]
  · intro fn rest h
    simp [extFromAttrs, extOrFile, h]
  · intro fn rest h
    simp [extFromAttrs, extOrFile, h]

/-- C9 witness: the corrected mapping applied at concrete MIME types and
filenames, including the multi-dot filename fallback. -/
theorem C9_witness :
    docExt "image/jpeg" [] = ".jpg" ∧
    docExt "image/png" [] = ".png" ∧
    docExt "video/mp4" [] = ".mp4" ∧
    docExt "application/gif" [] = ".gif" ∧
    docExt "application/pdf" [some "report.final.pdf"] = ".pdf" ∧
    docExt "application/octet" [none, some "noext"] = ".file" := by
  refine ⟨(C9_extension_mapping "image/jpeg" []).1 rfl,
    (C9_extension_mapping "image/png" []).2.1 rfl, ?_, ?_, ?_, ?_⟩
  · exact (C9_extension_mapping "video/mp4" []).2.2.2.1 (by decide) (by decide)
  · exact (C9_extension_mapping "application/gif" []).2.2.2.2.1
      (by decide) (by decide) (by decide)
  · have h := (C9_extension_mapping "application/pdf"
      [some "report.final.pdf"]).2.2.2.2.2.1 (by decide) (by decide) (by decide)
    rw [h]
    decide
  · have h := (C9_extension_mapping "application/octet"
      [none, some "noext"]).2.2.2.2.2.1 (by decide) (by decide) (by decide)
    rw [h]
    decide
